import Mathlib

/-!
Shallow embedding of the optimizer core of the repository: the Adam and
RMSProp per-parameter `step` pipelines (`src/burn-core/src/optim/adam.rs`,
`src/burn-core/src/optim/rmsprop.rs`) together with the weight-decay
collaborator they call into.

A tensor is modelled as a finite list of rationals tagged with a device
identifier; the elementwise square root is supplied by the external tensor
collaborator, so it appears here as an explicit function parameter
`sqrtf : ℚ → ℚ` threaded through the transforms, exactly as the spec treats
the tensor backend as an external collaborator supplying `elementwise-sqrt`.
Scalars (`f32` hyperparameters, the `f64` learning rate) are modelled as ℚ.
-/

/-- A tensor: a device tag plus a flat list of element values. -/
structure Tensor where
  device : Nat
  data : List ℚ
deriving DecidableEq

namespace Tensor

/-- Elementwise multiplication by a scalar (`Tensor::mul_scalar`). -/
def mul_scalar (t : Tensor) (s : ℚ) : Tensor :=
  ⟨t.device, t.data.map (fun x => x * s)⟩

/-- Elementwise addition (`Tensor::add`). -/
def add (a b : Tensor) : Tensor :=
  ⟨a.device, List.zipWith (fun x y => x + y) a.data b.data⟩

/-- Elementwise subtraction (`Tensor::sub`). -/
def sub (a b : Tensor) : Tensor :=
  ⟨a.device, List.zipWith (fun x y => x - y) a.data b.data⟩

instance : Sub Tensor := ⟨Tensor.sub⟩

/-- Elementwise division (`Tensor::div`). -/
def div (a b : Tensor) : Tensor :=
  ⟨a.device, List.zipWith (fun x y => x / y) a.data b.data⟩

/-- Elementwise natural power (`Tensor::powf`, only used with exponent 2). -/
def powf (t : Tensor) (n : Nat) : Tensor :=
  ⟨t.device, t.data.map (fun x => x ^ n)⟩

/-- Elementwise addition of a scalar (`Tensor::add_scalar`). -/
def add_scalar (t : Tensor) (s : ℚ) : Tensor :=
  ⟨t.device, t.data.map (fun x => x + s)⟩

/-- Elementwise division by a scalar (`Tensor::div_scalar`). -/
def div_scalar (t : Tensor) (s : ℚ) : Tensor :=
  ⟨t.device, t.data.map (fun x => x / s)⟩

/-- Elementwise square root (`Tensor::sqrt`), supplied by the external
tensor collaborator as the function `sqrtf`. -/
def sqrt (t : Tensor) (sqrtf : ℚ → ℚ) : Tensor :=
  ⟨t.device, t.data.map sqrtf⟩

/-- Device relocation (`Tensor::to_device`): values are untouched. -/
def to_device (t : Tensor) (d : Nat) : Tensor :=
  ⟨d, t.data⟩

/-- The all-zero tensor of a given device and length. -/
def zeros (dev : Nat) (n : Nat) : Tensor :=
  ⟨dev, List.replicate n 0⟩

end Tensor

/-- Modelled from the spec: the weight-decay collaborator
(`src/burn-core/src/optim/decay.rs`) is not among the provided sources; its
state is, per spec section 4.2, a single buffer tensor shaped like the
parameter. -/
structure WeightDecayState where
  buffer : Tensor
deriving DecidableEq

/-- Modelled from the spec: the weight-decay transform configuration. The
configuration surface names a `penalty`; the accumulator formula of spec
section 4.2 additionally mentions a decay rate, kept here as an explicit
field. -/
structure WeightDecay where
  penalty : ℚ
  decayRate : ℚ
deriving DecidableEq

namespace WeightDecay

/-- Modelled from the spec: the accumulator mode used by Adam, spec section
4.2: `buffer = buffer*decay_rate + gradient*penalty`, returning `buffer` as
the new gradient; with no prior state the buffer is `gradient*penalty`
(missing prior state treated as zero). -/
def transform (wd : WeightDecay) (grad : Tensor) (state : Option WeightDecayState) :
    Tensor × WeightDecayState :=
  let buffer :=
    match state with
    | some s => (s.buffer.mul_scalar wd.decayRate).add (grad.mul_scalar wd.penalty)
    | none => grad.mul_scalar wd.penalty
  (buffer, ⟨buffer⟩)

/-- Modelled from the spec: the coupled-decay mode used by RMSProp, spec
section 4.2: `gradient_out = gradient + penalty*parameter`, stateless. The
call site is `src/burn-core/src/optim/rmsprop.rs` line 98. -/
def transform_temp_fix (wd : WeightDecay) (grad : Tensor) (tensor : Tensor) : Tensor :=
  grad.add (tensor.mul_scalar wd.penalty)

end WeightDecay

/-- Modelled from the spec: weight-decay state relocation, spec section 4.1
(`to_device` must recursively relocate every optional nested state). -/
def WeightDecayState.to_device (s : WeightDecayState) (d : Nat) : WeightDecayState :=
  ⟨s.buffer.to_device d⟩

/-- `AdaptiveMomentumState` of `adam.rs`: step counter plus the two moment
estimate tensors. -/
structure AdaptiveMomentumState where
  time : Nat
  moment_1 : Tensor
  moment_2 : Tensor
deriving DecidableEq

/-- `AdaptiveMomentum` of `adam.rs`: the Adam hyperparameters. -/
structure AdaptiveMomentum where
  beta_1 : ℚ
  beta_2 : ℚ
  epsilon : ℚ
deriving DecidableEq

/-- `AdaptiveMomentum::transform` of `adam.rs` (lines 126-172). -/
def AdaptiveMomentum.transform (m : AdaptiveMomentum) (sqrtf : ℚ → ℚ) (grad : Tensor)
    (momentum_state : Option AdaptiveMomentumState) : Tensor × AdaptiveMomentumState :=
  let state : AdaptiveMomentumState :=
    match momentum_state with
    | some state =>
      ⟨state.time + 1,
        (state.moment_1.mul_scalar m.beta_1).add (grad.mul_scalar (1 - m.beta_1)),
        (state.moment_2.mul_scalar m.beta_2).add ((grad.powf 2).mul_scalar (1 - m.beta_2))⟩
    | none =>
      ⟨1, grad.mul_scalar (1 - m.beta_1), (grad.powf 2).mul_scalar (1 - m.beta_2)⟩
  let moment_1_corrected := state.moment_1.div_scalar (1 - m.beta_1 ^ state.time)
  let moment_2_corrected := state.moment_2.div_scalar (1 - m.beta_2 ^ state.time)
  let grad := moment_1_corrected.div ((moment_2_corrected.sqrt sqrtf).add_scalar m.epsilon)
  (grad, state)

/-- `AdaptiveMomentumState::to_device` of `adam.rs` (lines 184-188). -/
def AdaptiveMomentumState.to_device (s : AdaptiveMomentumState) (d : Nat) :
    AdaptiveMomentumState :=
  ⟨s.time, s.moment_1.to_device d, s.moment_2.to_device d⟩

/-- `AdamState` of `adam.rs`: optional weight-decay sub-state plus the
adaptive-momentum sub-state. -/
structure AdamState where
  weight_decay : Option WeightDecayState
  momentum : AdaptiveMomentumState
deriving DecidableEq

/-- `Adam` of `adam.rs`: the momentum transform plus optional weight decay. -/
structure Adam where
  momentum : AdaptiveMomentum
  weight_decay : Option WeightDecay
deriving DecidableEq

namespace Adam

/-- `Adam::step` of `adam.rs` (lines 49-76). -/
def step (a : Adam) (sqrtf : ℚ → ℚ) (lr : ℚ) (tensor grad : Tensor)
    (state : Option AdamState) : Tensor × Option AdamState :=
  let state_weight_decay : Option WeightDecayState :=
    match state with
    | some s => s.weight_decay
    | none => none
  let state_momentum : Option AdaptiveMomentumState :=
    match state with
    | some s => some s.momentum
    | none => none
  let p : Tensor × Option WeightDecayState :=
    match a.weight_decay with
    | some weight_decay =>
      let q := weight_decay.transform grad state_weight_decay
      (q.1, some q.2)
    | none => (grad, state_weight_decay)
  let q := a.momentum.transform sqrtf p.1 state_momentum
  let st : AdamState := ⟨p.2, q.2⟩
  let delta := q.1.mul_scalar lr
  (tensor - delta, some st)

/-- `Adam::to_device` of `adam.rs` (lines 78-86). -/
def to_device (state : AdamState) (d : Nat) : AdamState :=
  ⟨state.weight_decay.map (fun s => s.to_device d), state.momentum.to_device d⟩

end Adam

/-- `SquareAvgState` of `rmsprop.rs`. -/
structure SquareAvgState where
  square_avg : Tensor
deriving DecidableEq

/-- `SquareAvgState::transform` of `rmsprop.rs` (lines 152-169). -/
def SquareAvgState.transform (alpha : ℚ) (grad : Tensor) (state : Option SquareAvgState) :
    Tensor × SquareAvgState :=
  match state with
  | some state =>
    let square_avg :=
      (state.square_avg.mul_scalar alpha).add ((grad.powf 2).mul_scalar (1 - alpha))
    (grad, ⟨square_avg⟩)
  | none =>
    let square_avg := (grad.powf 2).mul_scalar (1 - alpha)
    (grad, ⟨square_avg⟩)

/-- `SquareAvgState::to_device` of `rmsprop.rs`. -/
def SquareAvgState.to_device (s : SquareAvgState) (d : Nat) : SquareAvgState :=
  ⟨s.square_avg.to_device d⟩

/-- `CenteredState` of `rmsprop.rs`: optional gradient average plus the
(possibly centered) second-moment average. -/
structure CenteredState where
  grad_avg : Option Tensor
  avg : Tensor
deriving DecidableEq

/-- `CenteredState::transform` of `rmsprop.rs` (lines 193-235). -/
def CenteredState.transform (alpha : ℚ) (centered : Bool) (grad : Tensor)
    (square_avg_state : SquareAvgState) (centered_state : Option CenteredState) :
    Tensor × SquareAvgState × CenteredState :=
  if centered then
    let grad_avg_constant := grad.mul_scalar (1 - alpha)
    let grad_avg :=
      match centered_state with
      | some state =>
        match state.grad_avg with
        | some grad_avg => (grad_avg.mul_scalar alpha).add grad_avg_constant
        | none => grad_avg_constant
      | none => grad_avg_constant
    let avg := square_avg_state.square_avg.sub (grad_avg.powf 2)
    (grad, square_avg_state, ⟨some grad_avg, avg⟩)
  else
    (grad, square_avg_state, ⟨none, square_avg_state.square_avg⟩)

/-- `CenteredState::to_device` of `rmsprop.rs`. -/
def CenteredState.to_device (s : CenteredState) (d : Nat) : CenteredState :=
  ⟨s.grad_avg.map (fun t => t.to_device d), s.avg.to_device d⟩

/-- `RMSPropMomentum` of `rmsprop.rs`: momentum factor and epsilon. -/
structure RMSPropMomentum where
  momentum : ℚ
  epsilon : ℚ
deriving DecidableEq

/-- `RMSPropMomentumState` of `rmsprop.rs`: the momentum buffer. -/
structure RMSPropMomentumState where
  buf : Tensor
deriving DecidableEq

/-- `RMSPropMomentum::transform` of `rmsprop.rs` (lines 260-294). -/
def RMSPropMomentum.transform (m : RMSPropMomentum) (sqrtf : ℚ → ℚ) (grad : Tensor)
    (centered_state : CenteredState) (momentum_state : Option RMSPropMomentumState) :
    Tensor × CenteredState × Option RMSPropMomentumState :=
  let grad := grad.div ((centered_state.avg.sqrt sqrtf).add_scalar m.epsilon)
  if 0 < m.momentum then
    let buf :=
      match momentum_state with
      | some state => (state.buf.mul_scalar m.momentum).add grad
      | none => grad
    (buf, centered_state, some ⟨buf⟩)
  else
    (grad, centered_state, none)

/-- `RMSPropMomentumState::to_device` of `rmsprop.rs`. -/
def RMSPropMomentumState.to_device (s : RMSPropMomentumState) (d : Nat) :
    RMSPropMomentumState :=
  ⟨s.buf.to_device d⟩

/-- `RMSPropState` of `rmsprop.rs` (lines 138-144): exactly three sub-states,
with no weight-decay slot. -/
structure RMSPropState where
  square_avg : SquareAvgState
  centered : CenteredState
  momentum : Option RMSPropMomentumState
deriving DecidableEq

/-- `RMSProp` of `rmsprop.rs`: hyperparameters plus optional weight decay. -/
structure RMSProp where
  alpha : ℚ
  centered : Bool
  momentum : RMSPropMomentum
  weight_decay : Option WeightDecay
deriving DecidableEq

namespace RMSProp

/-- `RMSProp::step` of `rmsprop.rs` (lines 79-125). -/
def step (r : RMSProp) (sqrtf : ℚ → ℚ) (lr : ℚ) (tensor grad : Tensor)
    (state : Option RMSPropState) : Tensor × Option RMSPropState :=
  let state_square_avg : Option SquareAvgState :=
    match state with
    | some s => some s.square_avg
    | none => none
  let state_centered : Option CenteredState :=
    match state with
    | some s => some s.centered
    | none => none
  let state_momentum : Option RMSPropMomentumState :=
    match state with
    | some s => s.momentum
    | none => none
  let grad :=
    match r.weight_decay with
    | some weight_decay => weight_decay.transform_temp_fix grad tensor
    | none => grad
  let p := SquareAvgState.transform r.alpha grad state_square_avg
  let q := CenteredState.transform r.alpha r.centered p.1 p.2 state_centered
  let w := r.momentum.transform sqrtf q.1 q.2.2 state_momentum
  let st : RMSPropState := ⟨q.2.1, w.2.1, w.2.2⟩
  let delta := w.1.mul_scalar lr
  (tensor - delta, some st)

/-- `RMSProp::to_device` of `rmsprop.rs` (lines 127-135). -/
def to_device (state : RMSPropState) (d : Nat) : RMSPropState :=
  ⟨state.square_avg.to_device d, state.centered.to_device d,
    state.momentum.map (fun m => m.to_device d)⟩

end RMSProp

/-! Helper lemmas about the list-level tensor operations. -/

lemma zipWith_ext {α β γ : Type} {f g : α → β → γ} (h : ∀ a b, f a b = g a b)
    (l : List α) (l' : List β) : List.zipWith f l l' = List.zipWith g l l' := by
  have hfg : f = g := funext fun a => funext fun b => h a b
  rw [hfg]

lemma zipWith_add_replicate_zero (l : List ℚ) :
    List.zipWith (fun x y => x + y) (List.replicate l.length 0) l = l := by
  induction l with
  | nil => rfl
  | cons a t ih => simpa [List.replicate_succ] using ih

lemma Tensor.sub_data (a b : Tensor) :
    (a - b).data = List.zipWith (fun x y => x - y) a.data b.data := rfl

lemma Tensor.sub_device (a b : Tensor) : (a - b).device = a.device := rfl

/-- C1: For every Adam step, with a prior momentum state the new first moment
is `beta1*prev_first + (1-beta1)*grad`, the new second moment is
`beta2*prev_second + (1-beta2)*grad^2`, and the step counter is `prev+1`;
with no prior state they are `grad*(1-beta1)`, `grad^2*(1-beta2)` and 1; and
the adapted gradient returned is
`(first_moment/(1-beta1^step_count)) /
 (sqrt(second_moment/(1-beta2^step_count)) + epsilon)`, elementwise. -/
theorem adam_adaptive_momentum_spec (m : AdaptiveMomentum) (sqrtf : ℚ → ℚ)
    (grad : Tensor) (prev : Option AdaptiveMomentumState) :
    ((m.transform sqrtf grad prev).2.time =
      match prev with
      | some s => s.time + 1
      | none => 1) ∧
    ((m.transform sqrtf grad prev).2.moment_1.data =
      match prev with
      | some s => List.zipWith (fun p g => m.beta_1 * p + (1 - m.beta_1) * g)
          s.moment_1.data grad.data
      | none => grad.data.map (fun g => g * (1 - m.beta_1))) ∧
    ((m.transform sqrtf grad prev).2.moment_2.data =
      match prev with
      | some s => List.zipWith (fun p g => m.beta_2 * p + (1 - m.beta_2) * g ^ 2)
          s.moment_2.data grad.data
      | none => grad.data.map (fun g => g ^ 2 * (1 - m.beta_2))) ∧
    ((m.transform sqrtf grad prev).1.data =
      List.zipWith (fun m1 m2 =>
          (m1 / (1 - m.beta_1 ^ (m.transform sqrtf grad prev).2.time)) /
            (sqrtf (m2 / (1 - m.beta_2 ^ (m.transform sqrtf grad prev).2.time)) + m.epsilon))
        (m.transform sqrtf grad prev).2.moment_1.data
        (m.transform sqrtf grad prev).2.moment_2.data) := by
  cases prev with
  | none =>
    refine ⟨rfl, rfl, ?_, ?_⟩
    · simp [AdaptiveMomentum.transform, Tensor.powf, Tensor.mul_scalar, List.map_map]
    · simp only [AdaptiveMomentum.transform, Tensor.div, Tensor.div_scalar, Tensor.sqrt,
        Tensor.add_scalar, List.map_map, List.zipWith_map]
      rfl
  | some s =>
    refine ⟨rfl, ?_, ?_, ?_⟩
    · simp only [AdaptiveMomentum.transform, Tensor.add, Tensor.mul_scalar,
        List.zipWith_map]
      exact zipWith_ext (fun a b => by ring) _ _
    · simp only [AdaptiveMomentum.transform, Tensor.add, Tensor.mul_scalar, Tensor.powf,
        List.map_map, List.zipWith_map]
      exact zipWith_ext (fun a b => by simp; ring) _ _
    · simp only [AdaptiveMomentum.transform, Tensor.div, Tensor.div_scalar, Tensor.sqrt,
        Tensor.add_scalar, List.map_map, List.zipWith_map]
      rfl

lemma RMSPropMomentum.transform_centered_fst (m : RMSPropMomentum) (sqrtf : ℚ → ℚ)
    (grad : Tensor) (cs : CenteredState) (ms : Option RMSPropMomentumState) :
    (m.transform sqrtf grad cs ms).2.1 = cs := by
  unfold RMSPropMomentum.transform
  split <;> rfl

lemma CenteredState.transform_grad_avg_isSome (alpha : ℚ) (centered : Bool) (grad : Tensor)
    (sa : SquareAvgState) (cso : Option CenteredState) :
    (CenteredState.transform alpha centered grad sa cso).2.2.grad_avg.isSome = centered := by
  cases centered <;> simp [CenteredState.transform]

/-- C4 (amended): `CenteredState::transform` performs no mismatch detection.
With `centered = true` and a prior centered sub-state whose `grad_avg` is
absent, the mismatched state is silently coerced: the transform behaves
exactly as if no prior centered state existed at all (initializing
`grad_avg = grad*(1-alpha)`), returning an ordinary result instead of
failing. -/
theorem centered_state_mismatch_silently_coerced (alpha : ℚ) (grad : Tensor)
    (sa : SquareAvgState) (avg : Tensor) :
    CenteredState.transform alpha true grad sa (some ⟨none, avg⟩) =
      CenteredState.transform alpha true grad sa none := rfl

/-- C4 counterexample: at a concrete input with `centered = true` and a prior
centered sub-state whose `grad_avg` is absent (the mismatch the claim says is
fatal), the transform returns an ordinary computed result — identical to the
fresh-state result — rather than failing: the mismatched state is silently
coerced and reused. -/
theorem centered_state_mismatch_not_fatal :
    CenteredState.transform (1/2) true ⟨0, [2]⟩ ⟨⟨0, [4]⟩⟩ (some ⟨none, ⟨0, [9]⟩⟩) =
      (⟨0, [2]⟩, ⟨⟨0, [4]⟩⟩, ⟨some ⟨0, [1]⟩, ⟨0, [3]⟩⟩) ∧
    CenteredState.transform (1/2) true ⟨0, [2]⟩ ⟨⟨0, [4]⟩⟩ (some ⟨none, ⟨0, [9]⟩⟩) =
      CenteredState.transform (1/2) true ⟨0, [2]⟩ ⟨⟨0, [4]⟩⟩ none := by
  constructor
  · norm_num [CenteredState.transform, Tensor.mul_scalar, Tensor.sub, Tensor.powf,
      List.zipWith]
  · rfl

/-- C8: For every RMSProp step, the centered sub-state of the output state
contains a `grad_avg` tensor exactly when the configuration has
`centered = true` — never for `centered = false`, always (from the first
step onward) for `centered = true`. -/
theorem rmsprop_centered_grad_avg_presence (r : RMSProp) (sqrtf : ℚ → ℚ) (lr : ℚ)
    (tensor grad : Tensor) (st : Option RMSPropState) :
    ∃ st', (r.step sqrtf lr tensor grad st).2 = some st' ∧
      st'.centered.grad_avg.isSome = r.centered := by
  refine ⟨_, rfl, ?_⟩
  show ((r.momentum.transform sqrtf _ _ _).2.1).grad_avg.isSome = r.centered
  rw [RMSPropMomentum.transform_centered_fst]
  exact CenteredState.transform_grad_avg_isSome _ _ _ _ _

/-- C9: `to_device` on an Adam state and on an RMSProp state relocates every
tensor inside the state — including tensors inside every optional nested
sub-state (Adam's weight-decay sub-state, RMSProp's momentum sub-state and
the optional `grad_avg`) — to the target device with its values unchanged,
and leaves the scalar step counter `time` unchanged. -/
theorem to_device_relocates (ast : AdamState) (rst : RMSPropState) (d : Nat) :
    (Adam.to_device ast d).momentum.time = ast.momentum.time ∧
    (Adam.to_device ast d).momentum.moment_1 = ⟨d, ast.momentum.moment_1.data⟩ ∧
    (Adam.to_device ast d).momentum.moment_2 = ⟨d, ast.momentum.moment_2.data⟩ ∧
    (Adam.to_device ast d).weight_decay
      = ast.weight_decay.map (fun w => ⟨⟨d, w.buffer.data⟩⟩) ∧
    (RMSProp.to_device rst d).square_avg.square_avg = ⟨d, rst.square_avg.square_avg.data⟩ ∧
    (RMSProp.to_device rst d).centered.avg = ⟨d, rst.centered.avg.data⟩ ∧
    (RMSProp.to_device rst d).centered.grad_avg
      = rst.centered.grad_avg.map (fun t => ⟨d, t.data⟩) ∧
    (RMSProp.to_device rst d).momentum = rst.momentum.map (fun s => ⟨⟨d, s.buf.data⟩⟩) :=
  ⟨rfl, rfl, rfl, rfl, rfl, rfl, rfl, rfl⟩

lemma map_ext {f g : ℚ → ℚ} (h : ∀ a, f a = g a) (l : List ℚ) :
    l.map f = l.map g := by
  have hfg : f = g := funext h
  rw [hfg]

lemma square_avg_transform_grad_pass (alpha : ℚ) (grad : Tensor)
    (state : Option SquareAvgState) :
    (SquareAvgState.transform alpha grad state).1 = grad := by
  cases state <;> rfl

lemma centered_transform_grad_pass (alpha : ℚ) (centered : Bool) (grad : Tensor)
    (sa : SquareAvgState) (cso : Option CenteredState) :
    (CenteredState.transform alpha centered grad sa cso).1 = grad := by
  unfold CenteredState.transform
  split <;> rfl

lemma CenteredState.transform_square_avg (alpha : ℚ) (centered : Bool) (grad : Tensor)
    (sa : SquareAvgState) (cso : Option CenteredState) :
    (CenteredState.transform alpha centered grad sa cso).2.1 = sa := by
  unfold CenteredState.transform
  split <;> rfl

/-- C2: every RMSProp step chains the three sub-transforms: the output
square-average satisfies `alpha*prev + (1-alpha)*grad^2` (or
`(1-alpha)*grad^2` with no prior state), the gradient is then normalized as
`grad / (sqrt(avg) + epsilon)`, and when the configured momentum is positive
the adapted gradient is the persisted buffer
`momentum*prev_buffer + normalized_grad` (or `normalized_grad` with no prior
buffer) while otherwise the adapted gradient is the normalized gradient and
the momentum sub-state of the output is `None`. Here `grad` is the gradient
entering the sub-transform chain (after the optional weight decay). -/
theorem rmsprop_step_subtransforms (r : RMSProp) (sqrtf : ℚ → ℚ) (lr : ℚ)
    (tensor grad : Tensor) (st : Option RMSPropState) :
    ∃ st', (r.step sqrtf lr tensor grad st).2 = some st' ∧
      ∃ g0, g0 = (match r.weight_decay with
          | some wd => wd.transform_temp_fix grad tensor
          | none => grad) ∧
        (st'.square_avg.square_avg.data =
          match st with
          | some s => List.zipWith (fun p g => r.alpha * p + (1 - r.alpha) * g ^ 2)
              s.square_avg.square_avg.data g0.data
          | none => g0.data.map (fun g => (1 - r.alpha) * g ^ 2)) ∧
        ∃ ng, ng = g0.div ((st'.centered.avg.sqrt sqrtf).add_scalar r.momentum.epsilon) ∧
          ∃ buf, buf = (match st with
              | some s =>
                match s.momentum with
                | some ms => (ms.buf.mul_scalar r.momentum.momentum).add ng
                | none => ng
              | none => ng) ∧
            st'.momentum = (if 0 < r.momentum.momentum then some ⟨buf⟩ else none) ∧
            (r.step sqrtf lr tensor grad st).1 =
              tensor - (if 0 < r.momentum.momentum then buf else ng).mul_scalar lr := by
  refine ⟨_, rfl, _, rfl, ?_, _, rfl, _, rfl, ?_, ?_⟩
  · simp only [CenteredState.transform_square_avg]
    cases st with
    | none =>
      simp only [SquareAvgState.transform, Tensor.mul_scalar, Tensor.powf, List.map_map]
      exact map_ext (fun a => by simp [Function.comp]; ring) _
    | some s =>
      simp only [SquareAvgState.transform, Tensor.add, Tensor.mul_scalar, Tensor.powf,
        List.map_map, List.zipWith_map]
      exact zipWith_ext (fun a b => by simp [Function.comp]; ring) _ _
  · simp only [centered_transform_grad_pass, square_avg_transform_grad_pass,
      RMSPropMomentum.transform_centered_fst, RMSPropMomentum.transform]
    cases st with
    | none => split <;> rfl
    | some s => split <;> rfl
  · simp only [RMSProp.step, centered_transform_grad_pass, square_avg_transform_grad_pass,
      RMSPropMomentum.transform_centered_fst, RMSPropMomentum.transform]
    cases st with
    | none => split <;> rfl
    | some s => split <;> rfl

/-- C3: for every step of Adam or RMSProp, the configured weight-decay
transform is applied to the gradient before the momentum/adaptive-moment
transform, and the returned parameter equals
`parameter - learning_rate * adapted_gradient` elementwise, with no further
normalization. -/
theorem step_pipeline_and_final_update (a : Adam) (r : RMSProp) (sqrtf : ℚ → ℚ)
    (lr : ℚ) (tensor grad : Tensor) (ast : Option AdamState)
    (rst : Option RMSPropState) :
    (∃ gd, gd = (match a.weight_decay with
        | some wd => (wd.transform grad (match ast with
            | some s => s.weight_decay
            | none => none)).1
        | none => grad) ∧
      (a.step sqrtf lr tensor grad ast).1.data =
        List.zipWith (fun p g => p - lr * g) tensor.data
          ((a.momentum.transform sqrtf gd (match ast with
              | some s => some s.momentum
              | none => none)).1.data)) ∧
    (∃ gd, gd = (match r.weight_decay with
        | some wd => wd.transform_temp_fix grad tensor
        | none => grad) ∧
      ∃ p, p = SquareAvgState.transform r.alpha gd (match rst with
          | some s => some s.square_avg
          | none => none) ∧
      ∃ q, q = CenteredState.transform r.alpha r.centered p.1 p.2 (match rst with
          | some s => some s.centered
          | none => none) ∧
      (r.step sqrtf lr tensor grad rst).1.data =
        List.zipWith (fun pa g => pa - lr * g) tensor.data
          ((r.momentum.transform sqrtf q.1 q.2.2 (match rst with
              | some s => s.momentum
              | none => none)).1.data)) := by
  constructor
  · refine ⟨_, rfl, ?_⟩
    rcases haw : a.weight_decay with _ | wd <;>
    · simp only [Adam.step, haw, Tensor.sub_data, Tensor.mul_scalar,
        List.zipWith_map_right]
      exact zipWith_ext (fun x y => by ring) _ _
  · refine ⟨_, rfl, _, rfl, _, rfl, ?_⟩
    simp only [RMSProp.step, Tensor.sub_data, Tensor.mul_scalar, List.zipWith_map_right]
    exact zipWith_ext (fun x y => by ring) _ _

lemma Tensor.sub_eq (a b : Tensor) : a - b = Tensor.sub a b := rfl

/-- C5 (amended): `step` performs no learning-rate validation. With a
negative learning rate the call does not fail: it still returns the plain
scaled-subtraction update `parameter - lr * adapted_gradient` together with
a populated (`Some`) state, for both Adam and RMSProp. -/
theorem step_no_learning_rate_validation (a : Adam) (r : RMSProp) (sqrtf : ℚ → ℚ)
    (lr : ℚ) (h : lr < 0) (tensor grad : Tensor) (ast : Option AdamState)
    (rst : Option RMSPropState) :
    (∃ (ad : Tensor) (st' : Option AdamState),
      a.step sqrtf lr tensor grad ast = (tensor - ad.mul_scalar lr, st') ∧
      st'.isSome) ∧
    (∃ (ad : Tensor) (st' : Option RMSPropState),
      r.step sqrtf lr tensor grad rst = (tensor - ad.mul_scalar lr, st') ∧
      st'.isSome) :=
  ⟨⟨_, _, rfl, rfl⟩, ⟨_, _, rfl, rfl⟩⟩

/-- C5 witness: the amended theorem applied at the concrete negative learning
rate -1. -/
theorem step_no_learning_rate_validation_witness :
    ((-1 : ℚ) < 0) ∧
    ((∃ (ad : Tensor) (st' : Option AdamState),
        (Adam.mk ⟨1/2, 1/2, 1⟩ none).step id (-1) ⟨0, [0]⟩ ⟨0, [2]⟩ none =
          (⟨0, [0]⟩ - ad.mul_scalar (-1), st') ∧ st'.isSome) ∧
     (∃ (ad : Tensor) (st' : Option RMSPropState),
        (RMSProp.mk (1/2) false ⟨9/10, 1⟩ none).step id (-1) ⟨0, [0]⟩ ⟨0, [2]⟩
          none = (⟨0, [0]⟩ - ad.mul_scalar (-1), st') ∧ st'.isSome)) :=
  ⟨by norm_num,
    step_no_learning_rate_validation (Adam.mk ⟨1/2, 1/2, 1⟩ none)
      (RMSProp.mk (1/2) false ⟨9/10, 1⟩ none) id (-1) (by norm_num)
      ⟨0, [0]⟩ ⟨0, [2]⟩ none none⟩

/-- C5 counterexample: at a concrete input with learning rate -1 (a
precondition violation per the claim), `Adam::step` does not fail: it
returns a fully computed updated parameter and state. -/
theorem adam_step_negative_lr_not_fatal :
    (Adam.mk ⟨1/2, 1/2, 1⟩ none).step id (-1) ⟨0, [0]⟩ ⟨0, [2]⟩ none =
      (⟨0, [2/5]⟩, some ⟨none, ⟨1, ⟨0, [1]⟩, ⟨0, [2]⟩⟩⟩) := by
  norm_num [Adam.step, AdaptiveMomentum.transform, Tensor.mul_scalar, Tensor.add,
    Tensor.powf, Tensor.div, Tensor.div_scalar, Tensor.sqrt, Tensor.add_scalar,
    Tensor.sub_eq, Tensor.sub, List.zipWith]

/-- C6: for every RMSProp step with weight decay configured, the decayed
gradient is `gradient + penalty*parameter` elementwise, computed against the
pre-update parameter value; and the mode is stateless: the step behaves
exactly as the step of an optimizer with no weight decay applied to the
pre-decayed gradient, so no weight-decay buffer exists in (or affects) the
output state. -/
theorem rmsprop_weight_decay_coupled_stateless (p dr alpha : ℚ) (c : Bool)
    (mom : RMSPropMomentum) (sqrtf : ℚ → ℚ) (lr : ℚ) (tensor grad : Tensor)
    (st : Option RMSPropState) :
    ((WeightDecay.mk p dr).transform_temp_fix grad tensor).data =
      List.zipWith (fun g w => g + p * w) grad.data tensor.data ∧
    (RMSProp.mk alpha c mom (some ⟨p, dr⟩)).step sqrtf lr tensor grad st =
      (RMSProp.mk alpha c mom none).step sqrtf lr tensor
        ((WeightDecay.mk p dr).transform_temp_fix grad tensor) st := by
  constructor
  · simp only [WeightDecay.transform_temp_fix, Tensor.add, Tensor.mul_scalar,
      List.zipWith_map_right]
    exact zipWith_ext (fun x y => by ring) _ _
  · rfl

/-- C10: for every Adam step where the optimizer is configured without
weight decay but the previous state contains a weight-decay sub-state, that
sub-state is carried into the output state unchanged, and the gradient fed
to the adaptive-momentum transform is the raw (undecayed) gradient. -/
theorem adam_step_carries_unused_decay_state (a : Adam) (h : a.weight_decay = none)
    (sqrtf : ℚ → ℚ) (lr : ℚ) (tensor grad : Tensor) (wdst : WeightDecayState)
    (mst : AdaptiveMomentumState) :
    a.step sqrtf lr tensor grad (some ⟨some wdst, mst⟩) =
      (tensor - (a.momentum.transform sqrtf grad (some mst)).1.mul_scalar lr,
        some ⟨some wdst, (a.momentum.transform sqrtf grad (some mst)).2⟩) := by
  simp only [Adam.step, h]

/-- C10 witness: the theorem applied to a concrete optimizer configured
without weight decay whose previous state nevertheless holds a weight-decay
buffer. -/
theorem adam_step_carries_unused_decay_state_witness :
    (Adam.mk ⟨1/2, 1/2, 1⟩ none).step id 1 ⟨0, [0]⟩ ⟨0, [2]⟩
        (some ⟨some ⟨⟨0, [5]⟩⟩, ⟨1, ⟨0, [1]⟩, ⟨0, [2]⟩⟩⟩) =
      (⟨0, [0]⟩ - ((AdaptiveMomentum.mk (1/2) (1/2) 1).transform id ⟨0, [2]⟩
          (some ⟨1, ⟨0, [1]⟩, ⟨0, [2]⟩⟩)).1.mul_scalar 1,
        some ⟨some ⟨⟨0, [5]⟩⟩, ((AdaptiveMomentum.mk (1/2) (1/2) 1).transform id ⟨0, [2]⟩
          (some ⟨1, ⟨0, [1]⟩, ⟨0, [2]⟩⟩)).2⟩) :=
  adam_step_carries_unused_decay_state (Adam.mk ⟨1/2, 1/2, 1⟩ none) rfl id 1
    ⟨0, [0]⟩ ⟨0, [2]⟩ ⟨⟨0, [5]⟩⟩ ⟨1, ⟨0, [1]⟩, ⟨0, [2]⟩⟩

/-- The helper list fact behind all-zero prior states: adding an all-zero
scaled buffer elementwise is the identity. -/
lemma zipWith_map_zero_add (c : ℚ) (n : Nat) (l : List ℚ) (hn : l.length = n) :
    List.zipWith (fun x y => x + y) ((List.replicate n (0 : ℚ)).map (fun x => x * c)) l
      = l := by
  have h1 : (List.replicate n (0 : ℚ)).map (fun x => x * c) = List.replicate n 0 := by
    simp
  rw [h1, ← hn]
  exact zipWith_add_replicate_zero l

/-- The all-zero Adam state of a given device and length, shaped to the
configuration (a weight-decay sub-state is present exactly when weight decay
is configured), with step counter 0 so that the first call behaves as
`step_count = 1`. -/
def zeroAdamState (a : Adam) (dev n : Nat) : AdamState :=
  ⟨a.weight_decay.map (fun _ => ⟨Tensor.zeros dev n⟩),
    ⟨0, Tensor.zeros dev n, Tensor.zeros dev n⟩⟩

/-- The all-zero RMSProp state of a given device and length, shaped to the
configuration (`grad_avg` present exactly when centered, a momentum buffer
present exactly when the configured momentum is positive). -/
def zeroRMSPropState (r : RMSProp) (dev n : Nat) : RMSPropState :=
  ⟨⟨Tensor.zeros dev n⟩,
    ⟨(if r.centered then some (Tensor.zeros dev n) else none), Tensor.zeros dev n⟩,
    (if 0 < r.momentum.momentum then some ⟨Tensor.zeros dev n⟩ else none)⟩

lemma weight_decay_transform_zero (wd : WeightDecay) (g : Tensor) (n dev : Nat)
    (hg : g.data.length = n) (hdev : dev = g.device) :
    wd.transform g (some ⟨Tensor.zeros dev n⟩) = wd.transform g none := by
  subst hdev
  have hd : List.zipWith (fun x y => x + y)
      ((List.replicate n (0 : ℚ)).map (fun x => x * wd.decayRate))
      (g.data.map (fun x => x * wd.penalty)) = g.data.map (fun x => x * wd.penalty) :=
    zipWith_map_zero_add wd.decayRate n (g.data.map (fun x => x * wd.penalty))
      (by simp [hg])
  have hbuf : ((Tensor.zeros g.device n).mul_scalar wd.decayRate).add
      (g.mul_scalar wd.penalty) = g.mul_scalar wd.penalty :=
    congrArg (Tensor.mk g.device) hd
  simp only [WeightDecay.transform]
  rw [hbuf]

lemma adaptive_momentum_transform_zero (m : AdaptiveMomentum) (sqrtf : ℚ → ℚ)
    (g : Tensor) (n dev : Nat) (hg : g.data.length = n) (hdev : dev = g.device) :
    m.transform sqrtf g (some ⟨0, Tensor.zeros dev n, Tensor.zeros dev n⟩) =
      m.transform sqrtf g none := by
  subst hdev
  have hd1 : List.zipWith (fun x y => x + y)
      ((List.replicate n (0 : ℚ)).map (fun x => x * m.beta_1))
      (g.data.map (fun x => x * (1 - m.beta_1)))
        = g.data.map (fun x => x * (1 - m.beta_1)) :=
    zipWith_map_zero_add m.beta_1 n (g.data.map (fun x => x * (1 - m.beta_1)))
      (by simp [hg])
  have hd2 : List.zipWith (fun x y => x + y)
      ((List.replicate n (0 : ℚ)).map (fun x => x * m.beta_2))
      ((g.data.map (fun x => x ^ 2)).map (fun x => x * (1 - m.beta_2)))
        = (g.data.map (fun x => x ^ 2)).map (fun x => x * (1 - m.beta_2)) :=
    zipWith_map_zero_add m.beta_2 n
      ((g.data.map (fun x => x ^ 2)).map (fun x => x * (1 - m.beta_2))) (by simp [hg])
  have h1 : ((Tensor.zeros g.device n).mul_scalar m.beta_1).add
      (g.mul_scalar (1 - m.beta_1)) = g.mul_scalar (1 - m.beta_1) :=
    congrArg (Tensor.mk g.device) hd1
  have h2 : ((Tensor.zeros g.device n).mul_scalar m.beta_2).add
      ((g.powf 2).mul_scalar (1 - m.beta_2)) = (g.powf 2).mul_scalar (1 - m.beta_2) :=
    congrArg (Tensor.mk g.device) hd2
  simp only [AdaptiveMomentum.transform]
  rw [h1, h2]

lemma square_avg_transform_zero (alpha : ℚ) (g : Tensor) (n dev : Nat)
    (hg : g.data.length = n) (hdev : dev = g.device) :
    SquareAvgState.transform alpha g (some ⟨Tensor.zeros dev n⟩) =
      SquareAvgState.transform alpha g none := by
  subst hdev
  have hd : List.zipWith (fun x y => x + y)
      ((List.replicate n (0 : ℚ)).map (fun x => x * alpha))
      ((g.data.map (fun x => x ^ 2)).map (fun x => x * (1 - alpha)))
        = (g.data.map (fun x => x ^ 2)).map (fun x => x * (1 - alpha)) :=
    zipWith_map_zero_add alpha n
      ((g.data.map (fun x => x ^ 2)).map (fun x => x * (1 - alpha))) (by simp [hg])
  have hsq : ((Tensor.zeros g.device n).mul_scalar alpha).add
      ((g.powf 2).mul_scalar (1 - alpha)) = (g.powf 2).mul_scalar (1 - alpha) :=
    congrArg (Tensor.mk g.device) hd
  simp only [SquareAvgState.transform]
  rw [hsq]

lemma centered_transform_zero (alpha : ℚ) (c : Bool) (g : Tensor)
    (sa : SquareAvgState) (av : Tensor) (n dev : Nat) (hg : g.data.length = n)
    (hdev : dev = g.device) :
    CenteredState.transform alpha c g sa
        (some ⟨(if c then some (Tensor.zeros dev n) else none), av⟩) =
      CenteredState.transform alpha c g sa none := by
  subst hdev
  cases c with
  | false => rfl
  | true =>
    have hd : List.zipWith (fun x y => x + y)
        ((List.replicate n (0 : ℚ)).map (fun x => x * alpha))
        (g.data.map (fun x => x * (1 - alpha))) = g.data.map (fun x => x * (1 - alpha)) :=
      zipWith_map_zero_add alpha n (g.data.map (fun x => x * (1 - alpha)))
        (by simp [hg])
    have hga : ((Tensor.zeros g.device n).mul_scalar alpha).add
        (g.mul_scalar (1 - alpha)) = g.mul_scalar (1 - alpha) :=
      congrArg (Tensor.mk g.device) hd
    simp only [CenteredState.transform, if_true]
    rw [hga]

lemma rmsprop_momentum_transform_zero (m : RMSPropMomentum) (sqrtf : ℚ → ℚ)
    (g : Tensor) (cs : CenteredState) (n dev : Nat)
    (hn : min g.data.length cs.avg.data.length = n) (hdev : dev = g.device) :
    m.transform sqrtf g cs
        (if 0 < m.momentum then some ⟨Tensor.zeros dev n⟩ else none) =
      m.transform sqrtf g cs none := by
  subst hdev
  by_cases hm : 0 < m.momentum
  · have hng : (g.div ((cs.avg.sqrt sqrtf).add_scalar m.epsilon)).data.length = n := by
      simp [Tensor.div, Tensor.sqrt, Tensor.add_scalar, hn]
    have hbuf : ((Tensor.zeros g.device n).mul_scalar m.momentum).add
        (g.div ((cs.avg.sqrt sqrtf).add_scalar m.epsilon)) =
        g.div ((cs.avg.sqrt sqrtf).add_scalar m.epsilon) :=
      congrArg (Tensor.mk g.device) (zipWith_map_zero_add _ _ _ hng)
    simp only [if_pos hm, RMSPropMomentum.transform]
    rw [hbuf]
  · simp only [if_neg hm, RMSPropMomentum.transform]

/-- C7: for both Adam and RMSProp, stepping with no previous state produces
exactly the same result as stepping with an all-zero previous state of the
parameter's shape (shaped to the configuration, with Adam's zero state using
step counter 0 so that the first call behaves as `step_count = 1`). -/
theorem first_step_equals_zero_state_step (a : Adam) (r : RMSProp) (sqrtf : ℚ → ℚ)
    (lr : ℚ) (tensor grad : Tensor) (h : grad.data.length = tensor.data.length) :
    a.step sqrtf lr tensor grad none =
      a.step sqrtf lr tensor grad
        (some (zeroAdamState a grad.device tensor.data.length)) ∧
    r.step sqrtf lr tensor grad none =
      r.step sqrtf lr tensor grad
        (some (zeroRMSPropState r grad.device tensor.data.length)) := by
  constructor
  · rcases haw : a.weight_decay with _ | wd
    · simp only [Adam.step, zeroAdamState, haw, Option.map_none']
      rw [adaptive_momentum_transform_zero a.momentum sqrtf grad tensor.data.length
        grad.device h rfl]
    · simp only [Adam.step, zeroAdamState, haw, Option.map_some']
      rw [weight_decay_transform_zero wd grad tensor.data.length grad.device h rfl]
      rw [adaptive_momentum_transform_zero a.momentum sqrtf (wd.transform grad none).1
        tensor.data.length grad.device
        (by simp [WeightDecay.transform, Tensor.mul_scalar, h]) rfl]
  · rcases hrw : r.weight_decay with _ | wd
    · simp only [RMSProp.step, zeroRMSPropState, hrw]
      rw [square_avg_transform_zero r.alpha grad tensor.data.length grad.device h rfl]
      rw [centered_transform_zero r.alpha r.centered
        (SquareAvgState.transform r.alpha grad none).1
        (SquareAvgState.transform r.alpha grad none).2
        (Tensor.zeros grad.device tensor.data.length) tensor.data.length grad.device
        (by rw [square_avg_transform_grad_pass]; exact h) rfl]
      rw [rmsprop_momentum_transform_zero r.momentum sqrtf
        (CenteredState.transform r.alpha r.centered
          (SquareAvgState.transform r.alpha grad none).1
          (SquareAvgState.transform r.alpha grad none).2 none).1
        (CenteredState.transform r.alpha r.centered
          (SquareAvgState.transform r.alpha grad none).1
          (SquareAvgState.transform r.alpha grad none).2 none).2.2
        tensor.data.length grad.device
        (by cases hc : r.centered <;>
          simp [hc, CenteredState.transform, SquareAvgState.transform, Tensor.powf,
            Tensor.mul_scalar, Tensor.sub, List.length_zipWith, h])
        (by rw [centered_transform_grad_pass, square_avg_transform_grad_pass])]
    · simp only [RMSProp.step, zeroRMSPropState, hrw]
      rw [square_avg_transform_zero r.alpha (wd.transform_temp_fix grad tensor)
        tensor.data.length grad.device
        (by simp [WeightDecay.transform_temp_fix, Tensor.add, Tensor.mul_scalar,
          List.length_zipWith, h]) rfl]
      rw [centered_transform_zero r.alpha r.centered
        (SquareAvgState.transform r.alpha (wd.transform_temp_fix grad tensor) none).1
        (SquareAvgState.transform r.alpha (wd.transform_temp_fix grad tensor) none).2
        (Tensor.zeros grad.device tensor.data.length) tensor.data.length grad.device
        (by rw [square_avg_transform_grad_pass]
            simp [WeightDecay.transform_temp_fix, Tensor.add, Tensor.mul_scalar,
              List.length_zipWith, h]) rfl]
      rw [rmsprop_momentum_transform_zero r.momentum sqrtf
        (CenteredState.transform r.alpha r.centered
          (SquareAvgState.transform r.alpha (wd.transform_temp_fix grad tensor) none).1
          (SquareAvgState.transform r.alpha (wd.transform_temp_fix grad tensor) none).2
          none).1
        (CenteredState.transform r.alpha r.centered
          (SquareAvgState.transform r.alpha (wd.transform_temp_fix grad tensor) none).1
          (SquareAvgState.transform r.alpha (wd.transform_temp_fix grad tensor) none).2
          none).2.2
        tensor.data.length grad.device
        (by cases hc : r.centered <;>
          simp [hc, CenteredState.transform, SquareAvgState.transform,
            WeightDecay.transform_temp_fix, Tensor.add, Tensor.powf, Tensor.mul_scalar,
            Tensor.sub, List.length_zipWith, h])
        (by rw [centered_transform_grad_pass, square_avg_transform_grad_pass]; rfl)]

/-- C7 witness: the zero-state equivalence applied at a concrete parameter,
gradient, and configuration pair. -/
theorem first_step_equals_zero_state_step_witness :
    ((⟨0, [2]⟩ : Tensor).data.length = (⟨0, [3]⟩ : Tensor).data.length) ∧
    ((Adam.mk ⟨1/2, 1/2, 1⟩ none).step id 1 ⟨0, [3]⟩ ⟨0, [2]⟩ none =
      (Adam.mk ⟨1/2, 1/2, 1⟩ none).step id 1 ⟨0, [3]⟩ ⟨0, [2]⟩
        (some (zeroAdamState (Adam.mk ⟨1/2, 1/2, 1⟩ none) 0 1))) ∧
    ((RMSProp.mk (1/2) false ⟨9/10, 1⟩ none).step id 1 ⟨0, [3]⟩ ⟨0, [2]⟩ none =
      (RMSProp.mk (1/2) false ⟨9/10, 1⟩ none).step id 1 ⟨0, [3]⟩ ⟨0, [2]⟩
        (some (zeroRMSPropState (RMSProp.mk (1/2) false ⟨9/10, 1⟩ none) 0 1))) :=
  ⟨rfl,
    (first_step_equals_zero_state_step (Adam.mk ⟨1/2, 1/2, 1⟩ none)
      (RMSProp.mk (1/2) false ⟨9/10, 1⟩ none) id 1 ⟨0, [3]⟩ ⟨0, [2]⟩ rfl).1,
    (first_step_equals_zero_state_step (Adam.mk ⟨1/2, 1/2, 1⟩ none)
      (RMSProp.mk (1/2) false ⟨9/10, 1⟩ none) id 1 ⟨0, [3]⟩ ⟨0, [2]⟩ rfl).2⟩
